import Mathlib

/-!
Verification of the non-local control-transfer subsystem of eztex:
the wasm setjmp/longjmp runtime (`src/csrc/wasm/sjlj_rt.c`) and the
bridge-core recovery channel (`src/pkg/tectonic/src/bridge_core/support.c`),
shallowly embedded in Lean 4.

Pointers are modelled as natural numbers with `0` standing for `NULL`.
A C function that can reach `__builtin_trap()` is embedded as a function
returning `Option`, with `none` meaning the trap fired.
-/

namespace Sjlj

/-- The `struct jmp_buf_impl` record of `sjlj_rt.c`:
`{ void *func_invocation_id; uint32_t label; struct arg { void *env; int val; } arg; }`. -/
structure jmp_buf_impl where
  func_invocation_id : Nat
  label : Nat
  arg_env : Nat
  arg_val : Int
  deriving Repr, DecidableEq

/-- `__wasm_setjmp(env, label, func_invocation_id)` from `sjlj_rt.c`:
traps when `label == 0` or `func_invocation_id == NULL`, otherwise stores
the invocation identity and the label into the jump buffer. -/
def wasm_setjmp (jb : jmp_buf_impl) (label : Nat) (func_invocation_id : Nat) :
    Option jmp_buf_impl :=
  if label = 0 then
    none
  else if func_invocation_id = 0 then
    none
  else
    some { jb with func_invocation_id := func_invocation_id, label := label }

/-- `__wasm_setjmp_test(env, func_invocation_id)` from `sjlj_rt.c`:
traps when `jb->label == 0` or `func_invocation_id == NULL`; returns
`jb->label` when the stored invocation id is identical to the argument,
and `0` otherwise. -/
def wasm_setjmp_test (jb : jmp_buf_impl) (func_invocation_id : Nat) :
    Option Nat :=
  if jb.label = 0 then
    none
  else if func_invocation_id = 0 then
    none
  else if jb.func_invocation_id = func_invocation_id then
    some jb.label
  else
    some 0

/-- Where control goes when a Transfer-Engine entry point finishes:
either a normal return to the caller, or a thrown wasm exception
(`__builtin_wasm_throw(tag, payload)`) whose payload is the contents of
the `jb->arg` pair. -/
inductive WasmFlow where
  | ret
  | thrown (tag : Nat) (payloadEnv : Nat) (payloadVal : Int)
  deriving Repr, DecidableEq

/-- `__wasm_longjmp(env, val)` from `sjlj_rt.c`.  `envPtr` is the address
of the jump buffer and `jb` its current contents.  The value is
canonicalized (`0` becomes `1`), the `{env, val}` pair is stored into
`jb->arg`, and a wasm exception with tag `1` carrying that pair is thrown
unconditionally. -/
def wasm_longjmp (envPtr : Nat) (jb : jmp_buf_impl) (val : Int) :
    jmp_buf_impl × WasmFlow :=
  let v := if val = 0 then 1 else val
  ({ jb with arg_env := envPtr, arg_val := v }, WasmFlow.thrown 1 envPtr v)

/-- Modelled from the spec: the compiler-generated catch handlers that are
not part of this repository (spec section 4.1 and the design notes).  A
thrown `C_LONGJMP` signal propagates outward through the live activations;
each activation whose frame contains a setjmp call site intercepts it and
calls `__wasm_setjmp_test` with its own invocation id; a nonzero result
resumes there, a zero result re-propagates the same signal unchanged, and
running out of live activations reaches the process boundary (`none`). -/
def propagate (jb : jmp_buf_impl) (frames : List Nat) (val : Int) :
    Option (Nat × Nat × Int) :=
  match frames with
  | [] => none
  | fid :: rest =>
    match wasm_setjmp_test jb fid with
    | none => none
    | some l => if l = 0 then propagate jb rest val else some (fid, l, val)

end Sjlj

namespace Bridge

/-- A single printf-style argument, as consumed by the `%d`/`%lu`/`%s`
directives that the bridge's call sites use. -/
inductive FmtArg where
  | intArg (n : Int)
  | natArg (n : Nat)
  | strArg (s : List Char)
  deriving Repr, DecidableEq

/-- Decimal rendering of a C `int`, as `%d` produces it. -/
def intChars (n : Int) : List Char :=
  (toString n).data

/-- Decimal rendering of a C `unsigned long`, as `%lu` produces it. -/
def natChars (n : Nat) : List Char :=
  (toString n).data

/-- The full (untruncated) text that `vsnprintf` would format, for the
directive subset the bridge uses: `%d`, `%lu`, `%s`, `%%`, and literal
characters. -/
def sprintf : List Char → List FmtArg → List Char
  | [], _ => []
  | '%' :: 'd' :: rest, FmtArg.intArg n :: args => intChars n ++ sprintf rest args
  | '%' :: 'l' :: 'u' :: rest, FmtArg.natArg n :: args => natChars n ++ sprintf rest args
  | '%' :: 's' :: rest, FmtArg.strArg s :: args => s ++ sprintf rest args
  | '%' :: '%' :: rest, args => '%' :: sprintf rest args
  | c :: rest, args => c :: sprintf rest args

/-- `#define BUF_SIZE 1024` from `support.c`. -/
def BUF_SIZE : Nat := 1024

/-- What `vsnprintf(buf, size, ...)` leaves in `buf` (the characters
before the NUL terminator): at most `size - 1` characters of the full
formatted text, the rest silently truncated. -/
def vsnprintf_buf (size : Nat) (formatted : List Char) : List Char :=
  formatted.take (size - 1)

/-- The mutable globals of `support.c`: the shared 1024-byte
`format_buf`, the `static char fprintf_buf[BUF_SIZE]` local to
`ttstub_fprintf`, and the single checkpoint-registration slot
(`tectonic_checkpoint_fn`, `tectonic_checkpoint_userdata`), function
pointer and userdata modelled as numbers with `0` for `NULL`. -/
structure BridgeState where
  format_buf : List Char
  fprintf_buf : List Char
  checkpoint_fn : Nat
  checkpoint_userdata : Nat
  deriving Repr, DecidableEq

/-- The initial values of the globals: both buffers empty strings, no
checkpoint callback registered. -/
def initState : BridgeState :=
  { format_buf := [], fprintf_buf := [], checkpoint_fn := 0, checkpoint_userdata := 0 }

/-- Where control goes when a bridge entry point finishes: a normal
return, or `longjmp(jump_buffer, v)` to the global recovery point. -/
inductive Flow where
  | ret
  | longjmp (v : Int)
  deriving Repr, DecidableEq

/-- `ttbc_set_checkpoint_callback(fn, userdata)` from `support.c`:
replaces the single global registration slot wholesale. -/
def ttbc_set_checkpoint_callback (s : BridgeState) (fn userdata : Nat) : BridgeState :=
  { s with checkpoint_fn := fn, checkpoint_userdata := userdata }

/-- `ttbc_fire_checkpoint(checkpoint_id)` from `support.c`: when a
non-null callback is registered, invokes it once with the registered
userdata and the id; otherwise does nothing.  The second component lists
the callback invocations made, as `(fn, userdata, id)` triples. -/
def ttbc_fire_checkpoint (s : BridgeState) (id : Int) :
    BridgeState × List (Nat × Nat × Int) :=
  (s, if s.checkpoint_fn ≠ 0 then [(s.checkpoint_fn, s.checkpoint_userdata, id)] else [])

/-- `_tt_abort(format, ...)` from `support.c`: formats into the shared
`format_buf` with `vsnprintf(format_buf, BUF_SIZE, ...)`, then
`longjmp(jump_buffer, 1)`. -/
def tt_abort (s : BridgeState) (fmt : List Char) (args : List FmtArg) :
    BridgeState × Flow :=
  ({ s with format_buf := vsnprintf_buf BUF_SIZE (sprintf fmt args) }, Flow.longjmp 1)

/-- `_ttbc_get_error_message()` from `support.c`: returns the contents of
the shared `format_buf`. -/
def ttbc_get_error_message (s : BridgeState) : List Char :=
  s.format_buf

/-- The (arbitrary but fixed) address of the single process-global
`static jmp_buf jump_buffer` of `support.c`. -/
def jump_buffer_addr : Nat := 1

/-- `ttbc_global_engine_enter()` from `support.c`: returns the address of
the one global jump buffer; no state is touched. -/
def ttbc_global_engine_enter (s : BridgeState) : BridgeState × Nat :=
  (s, jump_buffer_addr)

/-- `ttbc_global_engine_exit()` from `support.c`: an empty body. -/
def ttbc_global_engine_exit (s : BridgeState) : BridgeState :=
  s

/-- `ttstub_issue_warning(format, ...)` from `support.c`: formats into the
shared `format_buf` (the same buffer `_ttbc_get_error_message` reads) and
hands it to the external `ttbc_issue_warning`. -/
def ttstub_issue_warning (s : BridgeState) (fmt : List Char) (args : List FmtArg) :
    BridgeState :=
  { s with format_buf := vsnprintf_buf BUF_SIZE (sprintf fmt args) }

/-- `ttstub_issue_error(format, ...)` from `support.c`: same shared-buffer
formatting as `ttstub_issue_warning`, handed to `ttbc_issue_error`. -/
def ttstub_issue_error (s : BridgeState) (fmt : List Char) (args : List FmtArg) :
    BridgeState :=
  { s with format_buf := vsnprintf_buf BUF_SIZE (sprintf fmt args) }

/-- `ttstub_diag_vprintf(diag, format, ap)` from `support.c`: formats into
the shared `format_buf` and appends it to the diagnostic. -/
def ttstub_diag_vprintf (s : BridgeState) (fmt : List Char) (args : List FmtArg) :
    BridgeState :=
  { s with format_buf := vsnprintf_buf BUF_SIZE (sprintf fmt args) }

/-- `ttstub_fprintf(handle, format, ...)` from `support.c`: formats into
its own `static char fprintf_buf[BUF_SIZE]`, never into `format_buf`. -/
def ttstub_fprintf (s : BridgeState) (fmt : List Char) (args : List FmtArg) :
    BridgeState :=
  { s with fprintf_buf := vsnprintf_buf BUF_SIZE (sprintf fmt args) }

/-- One call into the bridge's public entry points.  External
collaborators' results that steer control flow are parameters:
`internalError` for `ttbc_input_seek`, `closeFailed` for
`ttbc_input_close`. -/
inductive Op where
  | abort (fmt : List Char) (args : List FmtArg)
  | issueWarning (fmt : List Char) (args : List FmtArg)
  | issueError (fmt : List Char) (args : List FmtArg)
  | diagPrintf (fmt : List Char) (args : List FmtArg)
  | fprintfOp (fmt : List Char) (args : List FmtArg)
  | inputSeek (internalError : Bool)
  | inputClose (closeFailed : Bool)
  | inputGetMtime
  | fireCheckpoint (id : Int)
  | setCheckpoint (fn userdata : Nat)
  | enter
  | exit
  deriving Repr, DecidableEq

/-- The effect of one bridge call on the global state, with where control
goes afterwards.  `ttstub_input_seek` and `ttstub_input_close` do
`longjmp(jump_buffer, 1)` when the underlying operation reports failure;
everything except `_tt_abort` and those two returns normally. -/
def step (s : BridgeState) : Op → BridgeState × Flow
  | Op.abort fmt args => tt_abort s fmt args
  | Op.issueWarning fmt args => (ttstub_issue_warning s fmt args, Flow.ret)
  | Op.issueError fmt args => (ttstub_issue_error s fmt args, Flow.ret)
  | Op.diagPrintf fmt args => (ttstub_diag_vprintf s fmt args, Flow.ret)
  | Op.fprintfOp fmt args => (ttstub_fprintf s fmt args, Flow.ret)
  | Op.inputSeek e => (s, if e then Flow.longjmp 1 else Flow.ret)
  | Op.inputClose f => (s, if f then Flow.longjmp 1 else Flow.ret)
  | Op.inputGetMtime => (s, Flow.ret)
  | Op.fireCheckpoint id => ((ttbc_fire_checkpoint s id).1, Flow.ret)
  | Op.setCheckpoint fn ud => (ttbc_set_checkpoint_callback s fn ud, Flow.ret)
  | Op.enter => ((ttbc_global_engine_enter s).1, Flow.ret)
  | Op.exit => (ttbc_global_engine_exit s, Flow.ret)

/-- Running the body of a protected region: the calls execute in order
until one of them diverts to the recovery point, which abandons the rest
of the body. -/
def runOps (s : BridgeState) : List Op → BridgeState × Flow
  | [] => (s, Flow.ret)
  | op :: rest =>
    match step s op with
    | (t, Flow.ret) => runOps t rest
    | (t, f) => (t, f)

/-- The bridge calls that write the shared `format_buf`. -/
def Op.writesMessage : Op → Bool
  | Op.abort _ _ => true
  | Op.issueWarning _ _ => true
  | Op.issueError _ _ => true
  | Op.diagPrintf _ _ => true
  | _ => false

/-- Whether a bridge call is a `_tt_abort` invocation. -/
def Op.isAbortCall : Op → Bool
  | Op.abort _ _ => true
  | _ => false

/-- A sequence of `ttbc_set_checkpoint_callback` registrations applied in
order. -/
def regFold (s : BridgeState) (regs : List (Nat × Nat)) : BridgeState :=
  regs.foldl (fun t p => ttbc_set_checkpoint_callback t p.1 p.2) s

/-- A bridge state whose error buffer holds some earlier message. -/
def sOld : BridgeState :=
  { initState with format_buf := "old".data }

/-- The format string of the spec's abort scenario. -/
def badTokenFmt : List Char :=
  "bad token %d".data

/-- A one-character format string with no directives. -/
def warnFmt : List Char :=
  "w".data

end Bridge

open Sjlj Bridge

/-! ## Transfer Engine theorems -/

/-- C1: marking a jump environment with a nonzero label `L` and a valid
token `T` succeeds, a subsequent test with the identical token `T`
returns `L`, and a test with a different valid token `T2` returns `0`. -/
theorem mark_then_test_dispatch (jb : jmp_buf_impl) (L T T2 : Nat)
    (hL : L ≠ 0) (hT : T ≠ 0) (hT2 : T2 ≠ 0) (hne : T2 ≠ T) :
    wasm_setjmp jb L T = some { jb with func_invocation_id := T, label := L } ∧
    wasm_setjmp_test { jb with func_invocation_id := T, label := L } T = some L ∧
    wasm_setjmp_test { jb with func_invocation_id := T, label := L } T2 = some 0 := by
  refine ⟨?_, ?_, ?_⟩
  · simp [wasm_setjmp, hL, hT]
  · simp [wasm_setjmp_test, hL, hT]
  · simp [wasm_setjmp_test, hL, hT2, Ne.symm hne]

/-- Witness for C1 at concrete inputs. -/
theorem mark_then_test_dispatch_witness :
    wasm_setjmp ⟨0, 0, 0, 0⟩ 3 5 = some ⟨5, 3, 0, 0⟩ ∧
    wasm_setjmp_test ⟨5, 3, 0, 0⟩ 5 = some 3 ∧
    wasm_setjmp_test ⟨5, 3, 0, 0⟩ 7 = some 0 :=
  mark_then_test_dispatch ⟨0, 0, 0, 0⟩ 3 5 7 (by decide) (by decide) (by decide)
    (by decide)

/-- C2: `__wasm_longjmp` canonicalizes the value (`0` becomes `1`, any
other value is kept), stores the `{env, value}` pair into the jump
buffer's `arg` record, and throws the tag-1 wasm exception carrying that
pair; it never returns normally, and with value `0` the carried value is
`1`. -/
theorem longjmp_canonicalizes (p : Nat) (jb : jmp_buf_impl) (v : Int) :
    wasm_longjmp p jb v =
      ({ jb with arg_env := p, arg_val := if v = 0 then 1 else v },
        WasmFlow.thrown 1 p (if v = 0 then 1 else v)) ∧
    (wasm_longjmp p jb v).2 ≠ WasmFlow.ret ∧
    (wasm_longjmp p jb 0).2 = WasmFlow.thrown 1 p 1 := by
  refine ⟨rfl, ?_, ?_⟩
  · simp [wasm_longjmp]
  · simp [wasm_longjmp]

/-- C3: `__wasm_setjmp` traps exactly when the label is `0` or the token
is null, and `__wasm_setjmp_test` traps exactly when the recorded label
is still `0` (no mark has happened) or the token is null; in all other
cases both return normally. -/
theorem mark_test_trap_iff (jb : jmp_buf_impl) (L T : Nat) :
    (wasm_setjmp jb L T = none ↔ L = 0 ∨ T = 0) ∧
    (wasm_setjmp_test jb T = none ↔ jb.label = 0 ∨ T = 0) := by
  constructor
  · unfold wasm_setjmp
    split_ifs <;> simp_all
  · unfold wasm_setjmp_test
    split_ifs <;> simp_all

/-- C7: re-marking an already-marked environment replaces the recorded
target: after marking with `(L1, T1)` and then `(L2, T2)`, testing with
`T2` returns `L2` and testing with `T1` returns `0`. -/
theorem remark_last_write_wins (jb : jmp_buf_impl) (L1 T1 L2 T2 : Nat)
    (hL1 : L1 ≠ 0) (hT1 : T1 ≠ 0) (hL2 : L2 ≠ 0) (hT2 : T2 ≠ 0) (hne : T1 ≠ T2) :
    (wasm_setjmp jb L1 T1).bind (fun jb1 => wasm_setjmp jb1 L2 T2) =
      some { jb with func_invocation_id := T2, label := L2 } ∧
    wasm_setjmp_test { jb with func_invocation_id := T2, label := L2 } T2 = some L2 ∧
    wasm_setjmp_test { jb with func_invocation_id := T2, label := L2 } T1 = some 0 := by
  refine ⟨?_, ?_, ?_⟩
  · simp [wasm_setjmp, hL1, hT1, hL2, hT2]
  · simp [wasm_setjmp_test, hL2, hT2]
  · simp [wasm_setjmp_test, hL2, hT1, Ne.symm hne]

/-- Witness for C7 at concrete inputs. -/
theorem remark_last_write_wins_witness :
    (wasm_setjmp ⟨0, 0, 0, 0⟩ 3 5).bind (fun jb1 => wasm_setjmp jb1 4 9) =
      some ⟨9, 4, 0, 0⟩ ∧
    wasm_setjmp_test ⟨9, 4, 0, 0⟩ 9 = some 4 ∧
    wasm_setjmp_test ⟨9, 4, 0, 0⟩ 5 = some 0 :=
  remark_last_write_wins ⟨0, 0, 0, 0⟩ 3 5 4 9 (by decide) (by decide) (by decide)
    (by decide) (by decide)

/-- C8: neither `__wasm_longjmp` nor `_tt_abort` ever returns normally to
its caller: the former always throws the tag-1 wasm exception and the
latter always does `longjmp(jump_buffer, 1)` to the recovery point; and
the thrown signal, propagated outward through the live activations,
resumes exactly at the activation holding the recorded invocation id with
the recorded label, or reaches the process boundary when no live
activation matches. -/
theorem transfer_abort_no_return :
    (∀ (p : Nat) (jb : jmp_buf_impl) (v : Int),
      (wasm_longjmp p jb v).2 ≠ WasmFlow.ret) ∧
    (∀ (s : BridgeState) (fmt : List Char) (args : List FmtArg),
      (tt_abort s fmt args).2 = Flow.longjmp 1) ∧
    (∀ (jb : jmp_buf_impl) (v : Int), jb.label ≠ 0 →
      ∀ frames : List Nat, (∀ f ∈ frames, f ≠ 0) →
        ((jb.func_invocation_id ∈ frames →
            propagate jb frames v = some (jb.func_invocation_id, jb.label, v)) ∧
          (jb.func_invocation_id ∉ frames → propagate jb frames v = none))) := by
  refine ⟨fun p jb v => by simp [wasm_longjmp], fun s fmt args => rfl, ?_⟩
  intro jb v hl frames
  induction frames with
  | nil => intro _; simp [propagate]
  | cons f rest ih =>
    intro hf
    have hf0 : f ≠ 0 := hf f (List.mem_cons_self f rest)
    have ih2 := ih (fun g hg => hf g (List.mem_cons_of_mem f hg))
    by_cases heq : jb.func_invocation_id = f
    · refine ⟨fun _ => ?_, fun hnot => absurd (by simp [heq]) hnot⟩
      simp [propagate, wasm_setjmp_test, hl, hf0, heq]
    · refine ⟨fun hmem => ?_, fun hnot => ?_⟩
      · have hmem2 : jb.func_invocation_id ∈ rest := by
          rcases List.mem_cons.mp hmem with h | h
          · exact absurd h heq
          · exact h
        simpa [propagate, wasm_setjmp_test, hl, hf0, heq] using ih2.1 hmem2
      · have hnot2 : jb.func_invocation_id ∉ rest :=
          fun h => hnot (List.mem_cons_of_mem f h)
        simpa [propagate, wasm_setjmp_test, hl, hf0, heq] using ih2.2 hnot2

/-- Witness for C8 at concrete inputs: the marked activation `5` with
label `3` claims the propagated signal, and with no matching live
activation the signal reaches the process boundary. -/
theorem transfer_abort_no_return_witness :
    propagate ⟨5, 3, 0, 0⟩ [7, 5] 2 = some (5, 3, 2) ∧
    propagate ⟨5, 3, 0, 0⟩ [7, 9] 2 = none :=
  ⟨(transfer_abort_no_return.2.2 ⟨5, 3, 0, 0⟩ 2 (by decide) [7, 5] (by decide)).1
      (by decide),
    (transfer_abort_no_return.2.2 ⟨5, 3, 0, 0⟩ 2 (by decide) [7, 9] (by decide)).2
      (by decide)⟩

/-! ## Recovery Channel theorems -/

/-- C4: `_tt_abort` formats printf-style into the shared 1024-byte
buffer, truncating at 1023 characters; the message afterwards has length
at most 1023, equals the full formatted text whenever that text fits,
and the spec's scenario `_tt_abort("bad token %d", 7)` leaves exactly
`"bad token 7"`. -/
theorem abort_formats_truncated (s : BridgeState) (fmt : List Char) (args : List FmtArg) :
    ttbc_get_error_message (tt_abort s fmt args).1 =
      (sprintf fmt args).take (BUF_SIZE - 1) ∧
    (ttbc_get_error_message (tt_abort s fmt args).1).length ≤ 1023 ∧
    ((sprintf fmt args).length ≤ 1023 →
      ttbc_get_error_message (tt_abort s fmt args).1 = sprintf fmt args) ∧
    ttbc_get_error_message (tt_abort s badTokenFmt [FmtArg.intArg 7]).1 =
      "bad token 7".data := by
  refine ⟨rfl, ?_, fun h => ?_, ?_⟩
  · have hle := List.length_take_le (BUF_SIZE - 1) (sprintf fmt args)
    simp only [ttbc_get_error_message, tt_abort, vsnprintf_buf, BUF_SIZE]
    exact hle
  · simp [ttbc_get_error_message, tt_abort, vsnprintf_buf, BUF_SIZE,
      List.take_of_length_le h]
  · rfl

/-- Witness for C4 at the spec's concrete scenario. -/
theorem abort_formats_truncated_witness :
    ttbc_get_error_message (tt_abort initState badTokenFmt [FmtArg.intArg 7]).1 =
      sprintf badTokenFmt [FmtArg.intArg 7] :=
  (abort_formats_truncated initState badTokenFmt [FmtArg.intArg 7]).2.2.1 (by decide)

/-- A single bridge call that does not write the shared buffer leaves the
error message intact. -/
theorem step_preserves_message (s : BridgeState) (op : Op)
    (h : Op.writesMessage op = false) :
    ((step s op).1).format_buf = s.format_buf := by
  cases op <;>
    simp_all [step, Op.writesMessage, ttstub_fprintf, ttbc_fire_checkpoint,
      ttbc_set_checkpoint_callback, ttbc_global_engine_enter, ttbc_global_engine_exit]

/-- C5 counterexample: a protected-region body consisting of one
`ttstub_issue_warning` call completes normally without any `_tt_abort`,
yet the error message afterwards differs from the one before, because the
warning is formatted into the same shared buffer. -/
theorem region_warning_changes_message :
    ([Op.issueWarning warnFmt []].all fun op => !(Op.isAbortCall op)) = true ∧
    (runOps sOld [Op.issueWarning warnFmt []]).2 = Flow.ret ∧
    ttbc_get_error_message (runOps sOld [Op.issueWarning warnFmt []]).1 ≠
      ttbc_get_error_message sOld := by
  decide

/-- C5 amended: a region whose body invokes none of `_tt_abort`,
`ttstub_issue_warning`, `ttstub_issue_error`, `ttstub_diag_vprintf` (the
four calls that format into the shared buffer) leaves the error message
unchanged; completing normally is exactly observing no diversion. -/
theorem region_without_writers_keeps_message (s : BridgeState) (ops : List Op)
    (h : ∀ op ∈ ops, Op.writesMessage op = false) :
    ttbc_get_error_message (runOps s ops).1 = ttbc_get_error_message s := by
  induction ops generalizing s with
  | nil => rfl
  | cons op rest ih =>
    have h1 := h op (List.mem_cons_self op rest)
    have h2 : ∀ o ∈ rest, Op.writesMessage o = false :=
      fun o ho => h o (List.mem_cons_of_mem op ho)
    have hbuf := step_preserves_message s op h1
    simp only [runOps]
    rcases hs : step s op with ⟨t, f⟩
    rw [hs] at hbuf
    cases f with
    | ret =>
      rw [ih t h2]
      exact hbuf
    | longjmp v => exact hbuf

/-- Witness for the amended C5 at a concrete region body. -/
theorem region_without_writers_keeps_message_witness :
    ttbc_get_error_message (runOps sOld [Op.inputGetMtime, Op.fireCheckpoint 2]).1 =
      ttbc_get_error_message sOld :=
  region_without_writers_keeps_message sOld [Op.inputGetMtime, Op.fireCheckpoint 2]
    (by decide)

/-- C6 counterexample: `ttstub_input_seek` with the collaborator
reporting an internal error does `longjmp(jump_buffer, 1)` to the
recovery point even though it is not `_tt_abort`, and it leaves the error
message exactly as it was — the diversion arrives without a freshly
formatted message. -/
theorem seek_error_diverts_without_message :
    (step sOld (Op.inputSeek true)).2 = Flow.longjmp 1 ∧
    Op.isAbortCall (Op.inputSeek true) = false ∧
    ttbc_get_error_message (step sOld (Op.inputSeek true)).1 =
      ttbc_get_error_message sOld := by
  decide

/-- C6 amended: the bridge calls that divert to the recovery point are
exactly `_tt_abort`, `ttstub_input_seek` on an internal seek error, and
`ttstub_input_close` on a close failure; every other call returns
normally, and `_tt_abort` alone refreshes the error message on the way
out. -/
theorem divergence_only_from_abort_or_io (s : BridgeState) (op : Op)
    (h : (step s op).2 ≠ Flow.ret) :
    (Op.isAbortCall op = true ∨ op = Op.inputSeek true ∨ op = Op.inputClose true) ∧
    (∀ (fmt : List Char) (args : List FmtArg),
      (step s (Op.abort fmt args)).2 = Flow.longjmp 1 ∧
      ttbc_get_error_message (step s (Op.abort fmt args)).1 =
        vsnprintf_buf BUF_SIZE (sprintf fmt args)) := by
  refine ⟨?_, fun fmt args => ⟨rfl, rfl⟩⟩
  cases op with
  | abort fmt args => exact Or.inl rfl
  | issueWarning fmt args => exact absurd rfl h
  | issueError fmt args => exact absurd rfl h
  | diagPrintf fmt args => exact absurd rfl h
  | fprintfOp fmt args => exact absurd rfl h
  | inputSeek e =>
    cases e with
    | false => exact absurd rfl h
    | true => exact Or.inr (Or.inl rfl)
  | inputClose f =>
    cases f with
    | false => exact absurd rfl h
    | true => exact Or.inr (Or.inr rfl)
  | inputGetMtime => exact absurd rfl h
  | fireCheckpoint id => exact absurd rfl h
  | setCheckpoint fn ud => exact absurd rfl h
  | enter => exact absurd rfl h
  | exit => exact absurd rfl h

/-- Witness for the amended C6 at the concrete `_tt_abort` call. -/
theorem divergence_only_from_abort_or_io_witness :
    Op.isAbortCall (Op.abort warnFmt []) = true ∨
      Op.abort warnFmt [] = Op.inputSeek true ∨
      Op.abort warnFmt [] = Op.inputClose true :=
  (divergence_only_from_abort_or_io sOld (Op.abort warnFmt []) (by decide)).1

/-- A fold of checkpoint registrations is a wholesale replacement by the
last registered pair (or no change when there is none). -/
theorem regFold_eq (regs : List (Nat × Nat)) : ∀ s : BridgeState,
    regFold s regs =
      match regs.getLast? with
      | some p => { s with checkpoint_fn := p.1, checkpoint_userdata := p.2 }
      | none => s := by
  induction regs with
  | nil => intro s; rfl
  | cons p rest ih =>
    intro s
    cases rest with
    | nil => rfl
    | cons q rest2 =>
      have h1 : regFold s (p :: q :: rest2) =
          regFold (ttbc_set_checkpoint_callback s p.1 p.2) (q :: rest2) := rfl
      rw [h1, ih, List.getLast?_cons_cons]
      cases hx : (q :: rest2).getLast? with
      | none => exact absurd (List.getLast?_eq_none_iff.mp hx) (by simp)
      | some x => rfl

/-- C9 counterexample: after the registration sequence consisting of the
single call `RegisterCheckpoint(NULL, 5)`, firing a checkpoint invokes
nothing at all, not the most recently registered callback. -/
theorem fire_after_null_registration_no_call :
    (ttbc_set_checkpoint_callback initState 0 5).checkpoint_fn = 0 ∧
    (ttbc_set_checkpoint_callback initState 0 5).checkpoint_userdata = 5 ∧
    (ttbc_fire_checkpoint (ttbc_set_checkpoint_callback initState 0 5) 3).2 = [] ∧
    ([] : List (Nat × Nat × Int)) ≠ [(0, 5, 3)] := by
  decide

/-- C9 amended: firing with no registration (or after the slot was
replaced by a null callback) is a no-op; each registration replaces the
single slot wholesale, and when the most recently registered callback is
non-null, `ttbc_fire_checkpoint` invokes exactly it, once, with the most
recently registered userdata and the given id, changing no state. -/
theorem fire_checkpoint_last_registration (s : BridgeState) (regs : List (Nat × Nat))
    (id : Int) (fn ud : Nat) (hlast : regs.getLast? = some (fn, ud)) (hfn : fn ≠ 0) :
    ttbc_fire_checkpoint (regFold s regs) id = (regFold s regs, [(fn, ud, id)]) ∧
    ttbc_fire_checkpoint initState id = (initState, []) ∧
    (∀ t : BridgeState, t.checkpoint_fn = 0 → ttbc_fire_checkpoint t id = (t, [])) := by
  refine ⟨?_, rfl, fun t ht => ?_⟩
  · have h := regFold_eq regs s
    rw [hlast] at h
    rw [h]
    simp [ttbc_fire_checkpoint, hfn]
  · simp [ttbc_fire_checkpoint, ht]

/-- Witness for the amended C9 at a concrete registration sequence. -/
theorem fire_checkpoint_last_registration_witness :
    ttbc_fire_checkpoint (regFold initState [(4, 8), (6, 9)]) 3 =
      (regFold initState [(4, 8), (6, 9)], [(6, 9, 3)]) :=
  (fire_checkpoint_last_registration initState [(4, 8), (6, 9)] 3 6 9 (by decide)
    (by decide)).1

/-- C10: every `ttbc_global_engine_enter` call returns the address of the
one process-global jump buffer, no matter the state or how often it is
called, and `ttbc_global_engine_exit` is the identity on the whole global
state, however many times it is applied. -/
theorem enter_constant_exit_identity (s t : BridgeState) (n : Nat) :
    ttbc_global_engine_enter s = (s, jump_buffer_addr) ∧
    (ttbc_global_engine_enter s).2 = (ttbc_global_engine_enter t).2 ∧
    ttbc_global_engine_exit s = s ∧
    ttbc_global_engine_exit^[n] s = s := by
  exact ⟨rfl, rfl, rfl, Function.iterate_fixed rfl n⟩
